import Mathlib

/-!
Verification development for the PrivyLens similarity-search page
(`src/pages/1_Similarity_Search.py`).

The page's ranking core is embedded shallowly:

* embedding vectors are lists of rationals (the float values of the
  external embedding service are idealized; the ranking logic only
  compares scores, never performs float arithmetic of its own);
* the external embedding service is a parameter
  `embed : String → Option Vec` — `some v` models a successful
  `embedding_request` returning vector `v`, `none` models the caught
  failure path that returns Python `None`;
* the float-valued `relatedness_function` is modelled twice: its numeric
  value inside the ranking loops is a parameter
  `score : Vec → Vec → ℚ` (the loops never inspect the value, they only
  store and sort by it), and its real-number mathematics is embedded
  separately over `ℝ` for the scorer claims;
* Python exceptions are `Except Unit`; the per-query CSV files are a
  `Store : String → Option (List Row)`.
-/

namespace PrivyLens

/-- An embedding vector (idealized: rationals instead of floats). -/
abbrev Vec := List ℚ

/-- One CSV cell: the files mix text fields and the numeric score. -/
inductive Cell where
  | str : String → Cell
  | num : ℚ → Cell
deriving DecidableEq

/-- One CSV row, as written by `writer_object.writerow([...])`. -/
abbrev Row := List Cell

/-- Numeric reading of a cell (a text cell reads as 0). -/
def cellNum : Cell → ℚ
  | .num q => q
  | .str _ => 0

/-- The numeric value found in column `i` of a row; models
`df.sort_values(by=i)` reading the score column of a header-less CSV. -/
def rowScore (i : Nat) (r : Row) : ℚ :=
  cellNum (r.getD i (.num 0))

/-- Stable descending sort by a rational key: models Python
`list.sort(key=..., reverse=True)` / `sorted(..., reverse=True)` and the
re-sort on reload. Python sorts are stable; `List.insertionSort` with
this relation places an element before its equals in the already-sorted
tail, which preserves original order among ties. -/
def sortByDesc {α : Type} (key : α → ℚ) (l : List α) : List α :=
  List.insertionSort (fun x y => key y ≤ key x) l

/-- Descending-order predicate for a list with a rational key. -/
def SortedDescBy {α : Type} (key : α → ℚ) (l : List α) : Prop :=
  l.Sorted (fun x y => key y ≤ key x)

/-- Outcome of the `OllamaEmbeddings(...).embed_query(text)` call inside
`embedding_request` (lines 31-36): the external service either returns a
vector or raises (the raise is caught there). -/
inductive EmbedServiceResult where
  | success : Vec → EmbedServiceResult
  | failure : EmbedServiceResult

/-- Model of `embedding_request` (lines 29-38).  The `try` block catches a
service failure and returns `None` (`.ok none`).  On the success path the
function executes `print(f"Ollama API response: {response}")` where
`response` is not a local; it resolves to the module-level global bound
only by the form handler (line 209).  `responseDefined` says whether that
global is bound; when it is not, the `print` raises `NameError`
(`.error ()`), which is not caught by the function's own handler because
it sits after the `except` block. -/
def embedding_request (service : EmbedServiceResult) (responseDefined : Bool) :
    Except Unit (Option Vec) :=
  match service with
  | .failure => .ok none
  | .success v => if responseDefined then .ok (some v) else .error ()

/-! ### arXiv provider (lines 41-98)

In every reachable call (the form handler binds the global `response`
before any search runs), `embedding_request text` behaves as an oracle
`String → Option Vec`; the ranking functions below take that oracle as
the parameter `embed`. -/

/-- Raw candidate metadata from the external `arxiv` client:
`result.title`, `result.summary`, `[x.href for x in result.links]`,
`result.published.strftime("%Y-%m-%d")`. -/
structure ArxivRaw where
  title : String
  summary : String
  links : List String
  published : String
deriving DecidableEq

/-- The `result_dict` built at lines 70-77. -/
structure ArxivScored where
  title : String
  summary : String
  article_url : String
  pdf_url : String
  published : String
  relatedness_score : ℚ
deriving DecidableEq

/-- The CSV row written for one scored arXiv result (lines 80-86):
`[result.title, result.summary, published, pdf_url, relatedness_score]`. -/
def arxivRowOf (d : ArxivScored) : Row :=
  [.str d.title, .str d.summary, .str d.published, .str d.pdf_url,
   .num d.relatedness_score]

/-- The `for result in client.results(search)` loop of lines 62-88, run
inside the `try` of lines 57-92 with the file already open for writing.
Returns the rows written to the file before the loop finished or raised,
and either the accumulated `result_list` (in encounter order) or the
exception.  Per candidate, in source order:
1. `arxiv_embedding = embedding_request(result.summary)`; `None` means
   `continue` (lines 63-66);
2. `relatedness_function(query_embedding, arxiv_embedding)` raises when
   `query_embedding` is `None` (line 68);
3. building `result_dict` indexes `links[0]` and `links[1]`, raising
   `IndexError` when the result has fewer than two links (lines 73-74);
4. the dict is appended and the row written (lines 79-86). -/
def arxivProcess (embed : String → Option Vec) (score : Vec → Vec → ℚ)
    (query_embedding : Option Vec) :
    List ArxivRaw → List Row × Except Unit (List ArxivScored)
  | [] => ([], .ok [])
  | c :: cs =>
    match embed c.summary with
    | none => arxivProcess embed score query_embedding cs
    | some e =>
      match query_embedding with
      | none => ([], .error ())
      | some q =>
        match c.links with
        | u0 :: u1 :: _ =>
          let d : ArxivScored :=
            { title := c.title, summary := c.summary, article_url := u0,
              pdf_url := u1, published := c.published,
              relatedness_score := score q e }
          let rest := arxivProcess embed score query_embedding cs
          (arxivRowOf d :: rest.1, rest.2.map (fun l => d :: l))
        | _ => ([], .error ())

/-- Model of `arxiv_search` (lines 41-98).  The candidates delivered by
the external client are the parameter `candidates`.  The file
`arxiv/{query}.csv` is opened for writing (truncated) before anything
else in the `try`; the query embedding is then requested, the loop runs,
and any exception is caught at line 90 and turned into `return []` —
rows already written stay in the file.  On the no-exception path the
returned list is sorted descending by `relatedness_score` (line 97).
Returns `(returned result list, rows now in the file)`. -/
def arxiv_search (embed : String → Option Vec) (score : Vec → Vec → ℚ)
    (candidates : List ArxivRaw) (query : String) :
    List ArxivScored × List Row :=
  match arxivProcess embed score (embed query) candidates with
  | (rows, .error _) => ([], rows)
  | (rows, .ok result_list) =>
    (sortByDesc (·.relatedness_score) result_list, rows)

/-! ### Google CSE provider (lines 100-144) -/

/-- One item of `json_data.get("items", [])`: `item["title"]`,
`item["link"]`, `item.get("snippet", "")` (the snippet key may be
absent). -/
structure CseItem where
  title : String
  link : String
  snippet : Option String
deriving DecidableEq

/-- One scored CSE result dict (lines 128-133). -/
structure CseScored where
  title : String
  link : String
  snippet : String
  relatedness_score : ℚ
deriving DecidableEq

/-- Line 124: `text_for_embedding = f"{title} {snippet}"`. -/
def text_for_embedding (title snippet : String) : String :=
  title ++ " " ++ snippet

/-- The text whose embedding scores a CSE item (title and snippet,
line 124, with the `item.get("snippet", "")` default of line 121). -/
def cseText (item : CseItem) : String :=
  text_for_embedding item.title (item.snippet.getD "")

/-- The CSV row written for one scored CSE result (line 142):
`[title, snippet, link, relatedness_score]`. -/
def cseRowOf (d : CseScored) : Row :=
  [.str d.title, .str d.snippet, .str d.link, .num d.relatedness_score]

/-- The `for item in items` loop of lines 118-133.  There is no
`None` check here: `relatedness_function(query_embedding, cse_embedding)`
(line 126) raises as soon as either vector is `None`, and nothing in
`google_custom_search` catches it. -/
def cseProcess (embed : String → Option Vec) (score : Vec → Vec → ℚ)
    (query_embedding : Option Vec) :
    List CseItem → Except Unit (List CseScored)
  | [] => .ok []
  | item :: rest =>
    match query_embedding, embed (cseText item) with
    | some q, some e =>
      (cseProcess embed score query_embedding rest).map
        (fun l =>
          { title := item.title, link := item.link,
            snippet := item.snippet.getD "",
            relatedness_score := score q e } :: l)
    | _, _ => .error ()

/-- Model of `google_custom_search` (lines 100-144) from the point where
the HTTP response yielded `items`.  The loop result is sorted descending
(line 136) and only then written to `cse/{query}.csv` (lines 139-142), so
on an exception nothing is written and the exception propagates to the
caller.  Returns `(sorted_results, rows written)` or the exception. -/
def google_custom_search (embed : String → Option Vec)
    (score : Vec → Vec → ℚ) (items : List CseItem) (query : String) :
    Except Unit (List CseScored × List Row) :=
  (cseProcess embed score (embed query) items).map
    (fun results =>
      (sortByDesc (·.relatedness_score) results,
       (sortByDesc (·.relatedness_score) results).map cseRowOf))

/-! ### Persistence layer -/

/-- The saved-search files of one provider folder, keyed by query. -/
abbrev Store := String → Option (List Row)

/-- `open(f"{folder}/{query}.csv", "w")` plus the writes: the file for
the key is replaced wholesale. -/
def storeWrite (fs : Store) (key : String) (rows : List Row) : Store :=
  fun k => if k = key then some rows else fs k

/-- An `arxiv_search` run together with its effect on the `arxiv/`
folder: the file for `query` holds exactly the rows the run wrote
(truncation on open, then the loop's writes). -/
def arxiv_run (fs : Store) (embed : String → Option Vec)
    (score : Vec → Vec → ℚ) (candidates : List ArxivRaw) (query : String) :
    Store × List ArxivScored :=
  let out := arxiv_search embed score candidates query
  (storeWrite fs query out.2, out.1)

/-- A `google_custom_search` run with its effect on the `cse/` folder;
when the loop raises, the file is never opened and the store is
untouched (the exception propagates). -/
def cse_run (fs : Store) (embed : String → Option Vec)
    (score : Vec → Vec → ℚ) (items : List CseItem) (query : String) :
    Except Unit (Store × List CseScored) :=
  (google_custom_search embed score items query).map
    (fun out => (storeWrite fs query out.2, out.1))

/-- Ascending stable sort by a rational key: the ascending pass that
`df.sort_values` performs before the `ascending=False` flag reverses
its order. -/
def sortByAsc {α : Type} (key : α → ℚ) (l : List α) : List α :=
  List.insertionSort (fun x y => key x ≤ key y) l

/-- Model of `df.sort_values(by=i, ascending=False)` on the reload path:
pandas produces the descending order by reversing an ascending sort, so
rows with tied keys do NOT keep their on-disk relative order — in this
model they come back reversed (pandas' default quicksort guarantees no
particular tie order; the reversal is what the `ascending=False` flag
induces on an ascending arrangement). -/
def pandasSortDesc {α : Type} (key : α → ℚ) (l : List α) : List α :=
  (sortByAsc key l).reverse

/-- The `load_arxiv_results` handler (lines 283-301): read the saved
file and re-sort it by column 4 descending
(`df.sort_values(by=4, ascending=False)`, line 288).  `none` models the
warning path of line 298: `FileNotFoundError` when no file exists, and
`pd.errors.EmptyDataError` when the file holds zero rows (a zero-byte
file, which `pd.read_csv` refuses to parse).  No embedding or scoring
call appears on this path. -/
def load_arxiv_results (fs : Store) (query : String) : Option (List Row) :=
  match fs query with
  | none => none
  | some [] => none
  | some rows => some (pandasSortDesc (rowScore 4) rows)

/-- The `load_cse_results` handler (lines 303-320): read the saved file
and re-sort it by column 3 descending (line 308); `none` models the
warning path of line 317 (`FileNotFoundError` or, for a zero-row file,
`pd.errors.EmptyDataError`). -/
def load_cse_results (fs : Store) (query : String) : Option (List Row) :=
  match fs query with
  | none => none
  | some [] => none
  | some rows => some (pandasSortDesc (rowScore 3) rows)

/-- What the delete-button handler reports (lines 272-280). -/
inductive DeleteOutcome where
  | success
  | warnNotFound
deriving DecidableEq

/-- The delete-button handler (lines 272-280): `os.remove` the file;
`FileNotFoundError` is caught and shown as a warning (line 279-280). -/
def delete_handler (fs : Store) (key : String) : Store × DeleteOutcome :=
  match fs key with
  | some _ => (fun k => if k = key then none else fs k, .success)
  | none => (fs, .warnNotFound)

/-! ### Relatedness scorer over the reals (lines 25-26)

`relatedness_function(a, b) = 1 - scipy.spatial.distance.cosine(a, b)`,
where scipy's cosine distance is `1 - ⟨a,b⟩ / (‖a‖₂ ‖b‖₂)`.  Floats are
idealized as real numbers here. -/

/-- Pointwise dot product of two coordinate lists. -/
def dot {α : Type} [Mul α] [Add α] [Zero α] (a b : List α) : α :=
  (List.zipWith (fun x y => x * y) a b).sum

/-- Euclidean norm of a coordinate list. -/
noncomputable def norm2 (a : List ℝ) : ℝ :=
  Real.sqrt (dot a a)

/-- `scipy.spatial.distance.cosine(a, b)`. -/
noncomputable def cosine_distance (a b : List ℝ) : ℝ :=
  1 - dot a b / (norm2 a * norm2 b)

/-- `relatedness_function` (lines 25-26): `1 - spatial.distance.cosine(a, b)`. -/
noncomputable def relatedness_function (a b : List ℝ) : ℝ :=
  1 - cosine_distance a b

/-! ### Derived closed forms (used to state theorems) -/

/-- The scored record the arXiv loop produces for a surviving candidate
`c` (derived from lines 63-77: the embedded text is `c.summary`, the two
URLs are `links[0]` and `links[1]`). -/
def mkScored (embed : String → Option Vec) (score : Vec → Vec → ℚ)
    (q : Vec) (c : ArxivRaw) : ArxivScored :=
  { title := c.title, summary := c.summary,
    article_url := c.links.getD 0 "", pdf_url := c.links.getD 1 "",
    published := c.published,
    relatedness_score := score q ((embed c.summary).getD []) }

/-- The scored record the CSE loop produces for item `it` (derived from
lines 118-133: the embedded text is `cseText it`). -/
def mkCseScored (embed : String → Option Vec) (score : Vec → Vec → ℚ)
    (q : Vec) (it : CseItem) : CseScored :=
  { title := it.title, link := it.link, snippet := it.snippet.getD "",
    relatedness_score := score q ((embed (cseText it)).getD []) }

/-! ### Sorting lemmas -/

instance {α : Type} (key : α → ℚ) : IsTotal α (fun x y => key y ≤ key x) :=
  ⟨fun a b => le_total (key b) (key a)⟩

instance {α : Type} (key : α → ℚ) : IsTrans α (fun x y => key y ≤ key x) :=
  ⟨fun _ _ _ h1 h2 => le_trans h2 h1⟩

theorem sortByDesc_sorted {α : Type} (key : α → ℚ) (l : List α) :
    SortedDescBy key (sortByDesc key l) :=
  List.sorted_insertionSort _ l

theorem sortByDesc_perm {α : Type} (key : α → ℚ) (l : List α) :
    (sortByDesc key l).Perm l :=
  List.perm_insertionSort _ l

theorem sortByDesc_length {α : Type} (key : α → ℚ) (l : List α) :
    (sortByDesc key l).length = l.length :=
  (sortByDesc_perm key l).length_eq

theorem sortByDesc_map {α β : Type} (key : α → ℚ) (key' : β → ℚ)
    (f : α → β) (h : ∀ a, key' (f a) = key a) (l : List α) :
    sortByDesc key' (l.map f) = (sortByDesc key l).map f := by
  unfold sortByDesc
  exact (List.map_insertionSort _ _ f l (by intro a _ b _; rw [h a, h b])).symm

theorem sortedDescBy_map {α β : Type} (key : α → ℚ) (key' : β → ℚ)
    (f : α → β) (h : ∀ a, key' (f a) = key a) {l : List α}
    (hl : SortedDescBy key l) : SortedDescBy key' (l.map f) :=
  List.Pairwise.map f (fun a b hab => by
    show key' (f b) ≤ key' (f a)
    rw [h a, h b]; exact hab) hl

theorem sortByDesc_of_sorted {α : Type} (key : α → ℚ) {l : List α}
    (h : SortedDescBy key l) : sortByDesc key l = l :=
  List.Sorted.insertionSort_eq h

instance {α : Type} (key : α → ℚ) : IsTotal α (fun x y => key x ≤ key y) :=
  ⟨fun a b => le_total (key a) (key b)⟩

instance {α : Type} (key : α → ℚ) : IsTrans α (fun x y => key x ≤ key y) :=
  ⟨fun _ _ _ h1 h2 => le_trans h1 h2⟩

instance {α : Type} (key : α → ℚ) : IsAntisymm α (fun x y => key y < key x) :=
  ⟨fun _ _ h1 h2 => absurd (lt_trans h1 h2) (lt_irrefl _)⟩

theorem pandasSortDesc_perm {α : Type} (key : α → ℚ) (l : List α) :
    (pandasSortDesc key l).Perm l :=
  (List.reverse_perm _).trans (List.perm_insertionSort _ l)

theorem pandasSortDesc_sorted {α : Type} (key : α → ℚ) (l : List α) :
    SortedDescBy key (pandasSortDesc key l) :=
  List.pairwise_reverse.mpr (List.sorted_insertionSort _ l)

theorem sortedDescBy_strict {α : Type} (key : α → ℚ) {l : List α}
    (hs : SortedDescBy key l)
    (hd : l.Pairwise (fun a b => key a ≠ key b)) :
    l.Sorted (fun x y => key y < key x) :=
  (hs.and hd).imp (fun h => lt_of_le_of_ne h.1 (Ne.symm h.2))

/-- A descending-sorted permutation of a list with pairwise-distinct
keys is unique. -/
theorem sorted_perm_eq {α : Type} (key : α → ℚ) {l₁ l₂ : List α}
    (hp : l₁.Perm l₂)
    (h₁ : SortedDescBy key l₁) (h₂ : SortedDescBy key l₂)
    (hd : l₁.Pairwise (fun a b => key a ≠ key b)) : l₁ = l₂ := by
  have hd₂ : l₂.Pairwise (fun a b => key a ≠ key b) :=
    (List.Perm.pairwise_iff (fun h => Ne.symm h) hp).mp hd
  exact List.eq_of_perm_of_sorted hp (sortedDescBy_strict key h₁ hd)
    (sortedDescBy_strict key h₂ hd₂)

theorem load_arxiv_results_storeWrite (fs : Store) (query : String)
    (rows : List Row) (h : rows ≠ []) :
    load_arxiv_results (storeWrite fs query rows) query
      = some (pandasSortDesc (rowScore 4) rows) := by
  cases rows with
  | nil => exact absurd rfl h
  | cons r rs => simp [load_arxiv_results, storeWrite]

theorem load_cse_results_storeWrite (fs : Store) (query : String)
    (rows : List Row) (h : rows ≠ []) :
    load_cse_results (storeWrite fs query rows) query
      = some (pandasSortDesc (rowScore 3) rows) := by
  cases rows with
  | nil => exact absurd rfl h
  | cons r rs => simp [load_cse_results, storeWrite]

/-! ### Characterization of the arXiv loop -/

theorem arxivProcess_eq (embed : String → Option Vec)
    (score : Vec → Vec → ℚ) (q : Vec) (cands : List ArxivRaw)
    (hlinks : ∀ c ∈ cands, embed c.summary ≠ none → 2 ≤ c.links.length) :
    arxivProcess embed score (some q) cands =
      (((cands.filter (fun c => (embed c.summary).isSome)).map
          (mkScored embed score q)).map arxivRowOf,
       .ok ((cands.filter (fun c => (embed c.summary).isSome)).map
          (mkScored embed score q))) := by
  induction cands with
  | nil => rfl
  | cons c cs ih =>
    have hc := hlinks c (List.mem_cons_self c cs)
    have hcs := fun x hx => hlinks x (List.mem_cons_of_mem c hx)
    cases he : embed c.summary with
    | none =>
      simp only [arxivProcess, he]
      rw [ih hcs]
      simp [List.filter_cons, he]
    | some v =>
      have h2 : 2 ≤ c.links.length := hc (by simp [he])
      cases hl : c.links with
      | nil => rw [hl] at h2; simp at h2
      | cons u0 ls =>
        cases ls with
        | nil => rw [hl] at h2; simp at h2
        | cons u1 rest =>
          simp only [arxivProcess, he, hl]
          rw [ih hcs]
          simp [List.filter_cons, he, mkScored, hl, arxivRowOf, Except.map]

theorem arxivProcess_ok_rows (embed : String → Option Vec)
    (score : Vec → Vec → ℚ) (qe : Option Vec) (cands : List ArxivRaw)
    (l : List ArxivScored)
    (h : (arxivProcess embed score qe cands).2 = .ok l) :
    (arxivProcess embed score qe cands).1 = l.map arxivRowOf := by
  induction cands generalizing l with
  | nil =>
    simp only [arxivProcess] at h ⊢
    cases h; rfl
  | cons c cs ih =>
    cases he : embed c.summary with
    | none =>
      simp only [arxivProcess, he] at h ⊢
      exact ih l h
    | some v =>
      cases hq : qe with
      | none => simp [arxivProcess, he, hq] at h
      | some q =>
        subst hq
        cases hl : c.links with
        | nil => simp [arxivProcess, he, hl] at h
        | cons u0 ls =>
          cases ls with
          | nil => simp [arxivProcess, he, hl] at h
          | cons u1 rest =>
            simp only [arxivProcess, he, hl] at h ⊢
            cases hr : (arxivProcess embed score (some q) cs).2 with
            | error e => rw [hr] at h; simp [Except.map] at h
            | ok l' =>
              rw [hr] at h
              simp only [Except.map, Except.ok.injEq] at h
              subst h
              simp [ih l' hr]

theorem arxivProcess_qe_none (embed : String → Option Vec)
    (score : Vec → Vec → ℚ) (cands : List ArxivRaw) :
    arxivProcess embed score none cands = ([], .ok []) ∨
    arxivProcess embed score none cands = ([], .error ()) := by
  induction cands with
  | nil => exact Or.inl rfl
  | cons c cs ih =>
    cases he : embed c.summary with
    | none => simpa only [arxivProcess, he] using ih
    | some v => exact Or.inr (by simp [arxivProcess, he])

theorem arxiv_search_eq (embed : String → Option Vec)
    (score : Vec → Vec → ℚ) (cands : List ArxivRaw) (query : String)
    (q : Vec) (hq : embed query = some q)
    (hlinks : ∀ c ∈ cands, embed c.summary ≠ none → 2 ≤ c.links.length) :
    arxiv_search embed score cands query =
      (sortByDesc (·.relatedness_score)
         ((cands.filter (fun c => (embed c.summary).isSome)).map
            (mkScored embed score q)),
       ((cands.filter (fun c => (embed c.summary).isSome)).map
          (mkScored embed score q)).map arxivRowOf) := by
  unfold arxiv_search
  rw [hq, arxivProcess_eq embed score q cands hlinks]

theorem arxiv_search_qe_none (embed : String → Option Vec)
    (score : Vec → Vec → ℚ) (cands : List ArxivRaw) (query : String)
    (hq : embed query = none) :
    arxiv_search embed score cands query = ([], []) := by
  unfold arxiv_search
  rw [hq]
  rcases arxivProcess_qe_none embed score cands with h | h
  · rw [h]; rfl
  · rw [h]

theorem arxiv_search_of_error (embed : String → Option Vec)
    (score : Vec → Vec → ℚ) (cands : List ArxivRaw) (query : String)
    (rows : List Row)
    (h : arxivProcess embed score (embed query) cands = (rows, .error ())) :
    arxiv_search embed score cands query = ([], rows) := by
  unfold arxiv_search
  rw [h]

/-! ### Characterization of the CSE loop -/

theorem cseProcess_eq (embed : String → Option Vec)
    (score : Vec → Vec → ℚ) (q : Vec) (items : List CseItem)
    (hemb : ∀ it ∈ items, (embed (cseText it)).isSome) :
    cseProcess embed score (some q) items =
      .ok (items.map (mkCseScored embed score q)) := by
  induction items with
  | nil => rfl
  | cons it rest ih =>
    have hit := hemb it (List.mem_cons_self it rest)
    have hrest := fun x hx => hemb x (List.mem_cons_of_mem it hx)
    cases he : embed (cseText it) with
    | none => rw [he] at hit; simp at hit
    | some v =>
      simp only [cseProcess, he]
      rw [ih hrest]
      simp [Except.map, mkCseScored, he]

theorem cseProcess_error_of_fail (embed : String → Option Vec)
    (score : Vec → Vec → ℚ) (qe : Option Vec) (items : List CseItem)
    (hfail : ∃ it ∈ items, embed (cseText it) = none) :
    cseProcess embed score qe items = .error () := by
  induction items with
  | nil => simp at hfail
  | cons it rest ih =>
    cases he : embed (cseText it) with
    | none => cases qe <;> simp [cseProcess, he]
    | some v =>
      rcases hfail with ⟨x, hx, hxe⟩
      rcases List.mem_cons.mp hx with rfl | hmem
      · rw [he] at hxe; cases hxe
      · cases hq : qe with
        | none => simp [cseProcess, he]
        | some q =>
          subst hq
          simp only [cseProcess, he]
          rw [ih ⟨x, hmem, hxe⟩]
          rfl

theorem cseProcess_qe_none (embed : String → Option Vec)
    (score : Vec → Vec → ℚ) (items : List CseItem) (h : items ≠ []) :
    cseProcess embed score none items = .error () := by
  cases items with
  | nil => exact absurd rfl h
  | cons it rest => cases he : embed (cseText it) <;> simp [cseProcess, he]

theorem google_custom_search_eq (embed : String → Option Vec)
    (score : Vec → Vec → ℚ) (items : List CseItem) (query : String)
    (q : Vec) (hq : embed query = some q)
    (hemb : ∀ it ∈ items, (embed (cseText it)).isSome) :
    google_custom_search embed score items query =
      .ok (sortByDesc (·.relatedness_score)
             (items.map (mkCseScored embed score q)),
           (sortByDesc (·.relatedness_score)
             (items.map (mkCseScored embed score q))).map cseRowOf) := by
  unfold google_custom_search
  rw [hq, cseProcess_eq embed score q items hemb]
  rfl

theorem google_custom_search_ok_shape (embed : String → Option Vec)
    (score : Vec → Vec → ℚ) (items : List CseItem) (query : String)
    {p : List CseScored × List Row}
    (h : google_custom_search embed score items query = .ok p) :
    p.2 = p.1.map cseRowOf ∧ SortedDescBy (·.relatedness_score) p.1 := by
  unfold google_custom_search at h
  cases hc : cseProcess embed score (embed query) items with
  | error e => rw [hc] at h; simp [Except.map] at h
  | ok results =>
    rw [hc] at h
    simp only [Except.map, Except.ok.injEq] at h
    subst h
    exact ⟨rfl, sortByDesc_sorted _ _⟩

/-! ### Counting helpers -/

theorem filter_isSome_length {α : Type} (f : α → Option Vec) (l : List α) :
    (l.filter (fun c => (f c).isSome)).length
      = l.length - (l.filter (fun c => (f c).isNone)).length := by
  induction l with
  | nil => rfl
  | cons a l ih =>
    have hle := List.length_filter_le (fun c => ((f c).isNone)) l
    cases h : f a with
    | none =>
      simp [List.filter_cons, h]
      omega
    | some v =>
      simp [List.filter_cons, h]
      omega

/-! ### Scorer lemmas over the reals -/

theorem dot_comm (a b : List ℝ) : dot a b = dot b a := by
  unfold dot
  rw [List.zipWith_comm_of_comm _ mul_comm]

theorem dot_self_nonneg (a : List ℝ) : 0 ≤ dot a a := by
  induction a with
  | nil => simp [dot]
  | cons x xs ih =>
    simp only [dot, List.zipWith_cons_cons, List.sum_cons] at ih ⊢
    nlinarith [mul_self_nonneg x]

theorem dot_self_pos {a : List ℝ} (h : ∃ x ∈ a, x ≠ 0) : 0 < dot a a := by
  induction a with
  | nil => simp at h
  | cons y ys ih =>
    rcases h with ⟨x, hx, hxne⟩
    rcases List.mem_cons.mp hx with rfl | hmem
    · have h1 := dot_self_nonneg ys
      have h2 : 0 < x * x := mul_self_pos.mpr hxne
      simp only [dot, List.zipWith_cons_cons, List.sum_cons] at h1 ⊢
      nlinarith
    · have h1 := ih ⟨x, hmem, hxne⟩
      have h2 := mul_self_nonneg y
      simp only [dot, List.zipWith_cons_cons, List.sum_cons] at h1 ⊢
      nlinarith

/-! ### Congruence and all-fail lemmas -/

theorem arxivProcess_all_fail (embed : String → Option Vec)
    (score : Vec → Vec → ℚ) (qe : Option Vec) (cands : List ArxivRaw)
    (h : ∀ c ∈ cands, embed c.summary = none) :
    arxivProcess embed score qe cands = ([], .ok []) := by
  induction cands with
  | nil => rfl
  | cons c cs ih =>
    have hc := h c (List.mem_cons_self c cs)
    simp only [arxivProcess, hc]
    exact ih (fun x hx => h x (List.mem_cons_of_mem c hx))

theorem arxivProcess_congr (embed embed' : String → Option Vec)
    (score : Vec → Vec → ℚ) (qe : Option Vec) (cands : List ArxivRaw)
    (h : ∀ c ∈ cands, embed c.summary = embed' c.summary) :
    arxivProcess embed score qe cands
      = arxivProcess embed' score qe cands := by
  induction cands with
  | nil => rfl
  | cons c cs ih =>
    have hc := h c (List.mem_cons_self c cs)
    have hcs := fun x hx => h x (List.mem_cons_of_mem c hx)
    simp only [arxivProcess, hc, ih hcs]

theorem cseProcess_congr (embed embed' : String → Option Vec)
    (score : Vec → Vec → ℚ) (qe : Option Vec) (items : List CseItem)
    (h : ∀ it ∈ items, embed (cseText it) = embed' (cseText it)) :
    cseProcess embed score qe items = cseProcess embed' score qe items := by
  induction items with
  | nil => rfl
  | cons it rest ih =>
    have hit := h it (List.mem_cons_self it rest)
    have hrest := fun x hx => h x (List.mem_cons_of_mem it hx)
    simp only [cseProcess, hit, ih hrest]

theorem rowScore_arxivRowOf (d : ArxivScored) :
    rowScore 4 (arxivRowOf d) = d.relatedness_score := rfl

theorem rowScore_cseRowOf (d : CseScored) :
    rowScore 3 (cseRowOf d) = d.relatedness_score := rfl

/-! ### Claim theorems -/

/-- Claim C5: the relatedness scorer computes exactly
`1 − cosine_distance(a, b)`, is symmetric, and scores every nonzero
vector against itself as exactly 1 (the real-number idealization of
"≈ 1.0 within floating-point tolerance").  Purity and determinism hold by
construction: `relatedness_function` is a mathematical function of its
two arguments. -/
theorem C5_relatedness_scorer :
    (∀ a b : List ℝ, relatedness_function a b = 1 - cosine_distance a b)
    ∧ (∀ a b : List ℝ, relatedness_function a b = relatedness_function b a)
    ∧ (∀ a : List ℝ, (∃ x ∈ a, x ≠ 0) → relatedness_function a a = 1) := by
  refine ⟨fun a b => rfl, fun a b => ?_, fun a h => ?_⟩
  · unfold relatedness_function cosine_distance
    rw [dot_comm, mul_comm]
  · have hpos := dot_self_pos h
    unfold relatedness_function cosine_distance norm2
    rw [Real.mul_self_sqrt (le_of_lt hpos), div_self (ne_of_gt hpos)]
    norm_num

/-- Claim C5 witness: the scorer at the concrete nonzero vector `[1, 0]`. -/
theorem C5_relatedness_scorer_witness :
    (∃ x ∈ [(1 : ℝ), 0], x ≠ 0)
    ∧ relatedness_function [(1 : ℝ), 0] [(1 : ℝ), 0] = 1 := by
  have h : ∃ x ∈ [(1 : ℝ), 0], x ≠ 0 := ⟨1, by simp⟩
  exact ⟨h, C5_relatedness_scorer.2.2 _ h⟩

/-- Claim C8: the delete handler is idempotent at the UI: deleting the
same key twice in a row cannot raise after the first deletion — the
second call takes the caught-`FileNotFoundError` path and reports the
non-fatal "not found" warning, leaving the store unchanged.  The handler
is a total function: the only exception `os.remove` raises on a missing
file is caught (lines 279-280). -/
theorem C8_delete_idempotent (fs : Store) (key : String) :
    (delete_handler (delete_handler fs key).1 key).2
        = DeleteOutcome.warnNotFound
    ∧ (delete_handler (delete_handler fs key).1 key).1
        = (delete_handler fs key).1 := by
  cases h : fs key with
  | none => simp [delete_handler, h]
  | some rows => simp [delete_handler, h]

/-- Claim C9: on its success path `embedding_request` executes
`print(f"Ollama API response: {response}")` (line 37) where `response` is
never defined inside the function; the name resolves to the module-level
global bound only by the form handler (line 209).  When that global is
unbound, the call raises `NameError` even though the embedding service
call succeeded — the raise sits after the `except` block, so it is not
caught — and the embedding is returned only when the global happens to
exist.  The service-failure path returns `None` from inside the `except`
block before reaching the `print`, so it never raises. -/
theorem C9_embedding_request_response_name_error :
    (∀ v : Vec, embedding_request (.success v) false = .error ())
    ∧ (∀ v : Vec, embedding_request (.success v) true = .ok (some v))
    ∧ (∀ b : Bool, embedding_request .failure b = .ok none) :=
  ⟨fun _ => rfl, fun _ => rfl, fun _ => rfl⟩

/-- Claim C7: persisted rows follow the fixed, header-less column order
of their provider — arXiv rows are
`[title, summary, published_date, pdf_url, relatedness_score]`
(lines 80-86), CSE rows are `[title, snippet, link, relatedness_score]`
(line 142); the rows a completed run writes are exactly the per-result
rows in that shape; and the file for a key is fully overwritten, not
appended: the stored content after a run is determined by the run alone,
independent of any previous content under the same key. -/
theorem C7_row_layout_and_overwrite :
    (∀ d : ArxivScored, arxivRowOf d =
        [Cell.str d.title, Cell.str d.summary, Cell.str d.published,
         Cell.str d.pdf_url, Cell.num d.relatedness_score])
    ∧ (∀ d : CseScored, cseRowOf d =
        [Cell.str d.title, Cell.str d.snippet, Cell.str d.link,
         Cell.num d.relatedness_score])
    ∧ (∀ (embed : String → Option Vec) (score : Vec → Vec → ℚ)
        (qe : Option Vec) (cands : List ArxivRaw) (l : List ArxivScored),
        (arxivProcess embed score qe cands).2 = Except.ok l →
        (arxivProcess embed score qe cands).1 = l.map arxivRowOf)
    ∧ (∀ (embed : String → Option Vec) (score : Vec → Vec → ℚ)
        (items : List CseItem) (query : String)
        (p : List CseScored × List Row),
        google_custom_search embed score items query = Except.ok p →
        p.2 = p.1.map cseRowOf)
    ∧ (∀ (fs : Store) (embed : String → Option Vec)
        (score : Vec → Vec → ℚ) (cands : List ArxivRaw) (query : String),
        (arxiv_run fs embed score cands query).1 query
          = some (arxiv_search embed score cands query).2)
    ∧ (∀ (fs : Store) (embed : String → Option Vec)
        (score : Vec → Vec → ℚ) (items : List CseItem) (query : String)
        (p : Store × List CseScored),
        cse_run fs embed score items query = Except.ok p →
        p.1 query = some (p.2.map cseRowOf)) := by
  refine ⟨fun d => rfl, fun d => rfl,
    fun embed score qe cands l h => arxivProcess_ok_rows _ _ _ _ _ h,
    fun embed score items query p h =>
      (google_custom_search_ok_shape _ _ _ _ h).1,
    fun fs embed score cands query => by simp [arxiv_run, storeWrite],
    fun fs embed score items query p h => ?_⟩
  unfold cse_run at h
  cases hg : google_custom_search embed score items query with
  | error e => rw [hg] at h; simp [Except.map] at h
  | ok g =>
    rw [hg] at h
    simp only [Except.map, Except.ok.injEq] at h
    subst h
    have hshape := google_custom_search_ok_shape _ _ _ _ hg
    simp [storeWrite, hshape.1]

/-- Claim C7 witness: a one-candidate arXiv loop writes exactly the
five-column row, and a one-item CSE run produces exactly the four-column
row of its scored result. -/
theorem C7_row_layout_and_overwrite_witness :
    ((arxivProcess (fun _ => some [1]) (fun _ _ => 0) (some [1])
        [⟨"t", "s", ["u0", "u1"], "2024"⟩]).2
      = Except.ok [⟨"t", "s", "u0", "u1", "2024", 0⟩])
    ∧ ((arxivProcess (fun _ => some [1]) (fun _ _ => 0) (some [1])
        [⟨"t", "s", ["u0", "u1"], "2024"⟩]).1
      = ([⟨"t", "s", "u0", "u1", "2024", 0⟩] :
          List ArxivScored).map arxivRowOf)
    ∧ (google_custom_search (fun _ => some [1]) (fun _ _ => 0)
        [⟨"T", "l", some "S"⟩] "q"
      = Except.ok ([⟨"T", "l", "S", 0⟩],
          [[Cell.str "T", Cell.str "S", Cell.str "l", Cell.num 0]]))
    ∧ ([[Cell.str "T", Cell.str "S", Cell.str "l", Cell.num 0]] :
          List Row)
      = ([⟨"T", "l", "S", 0⟩] : List CseScored).map cseRowOf := by
  refine ⟨rfl, C7_row_layout_and_overwrite.2.2.1 _ _ _ _ _ rfl, rfl, ?_⟩
  exact C7_row_layout_and_overwrite.2.2.2.1 (fun _ => some [1])
    (fun _ _ => 0) [⟨"T", "l", some "S"⟩] "q" _ rfl

/-- Claim C1 (amended): when the query embedding succeeds, every
candidate embedding succeeds, and — for arXiv — every candidate carries
at least two links, both rankers return a permutation of the input
candidates (each paired with its score, no drops, no duplicates) sorted
descending by relatedness score; an empty candidate set yields an empty
sequence without error on both providers; and when all candidates fail,
`arxiv_search` returns an empty sequence without error, but
`google_custom_search` raises an exception at the first failed candidate
instead of returning an empty sequence. -/
theorem C1_rank_permutation_sorted :
    (∀ (embed : String → Option Vec) (score : Vec → Vec → ℚ)
        (cands : List ArxivRaw) (query : String) (q : Vec),
        embed query = some q →
        (∀ c ∈ cands, (embed c.summary).isSome) →
        (∀ c ∈ cands, 2 ≤ c.links.length) →
        ((arxiv_search embed score cands query).1).Perm
            (cands.map (mkScored embed score q))
        ∧ SortedDescBy (·.relatedness_score)
            (arxiv_search embed score cands query).1)
    ∧ (∀ (embed : String → Option Vec) (score : Vec → Vec → ℚ)
        (items : List CseItem) (query : String) (q : Vec),
        embed query = some q →
        (∀ it ∈ items, (embed (cseText it)).isSome) →
        ∃ ret rows, google_custom_search embed score items query
            = Except.ok (ret, rows)
          ∧ ret.Perm (items.map (mkCseScored embed score q))
          ∧ SortedDescBy (·.relatedness_score) ret)
    ∧ (∀ (embed : String → Option Vec) (score : Vec → Vec → ℚ)
        (query : String),
        arxiv_search embed score [] query = ([], [])
        ∧ google_custom_search embed score ([] : List CseItem) query
            = Except.ok ([], []))
    ∧ (∀ (embed : String → Option Vec) (score : Vec → Vec → ℚ)
        (cands : List ArxivRaw) (query : String),
        (∀ c ∈ cands, embed c.summary = none) →
        arxiv_search embed score cands query = ([], []))
    ∧ (∀ (embed : String → Option Vec) (score : Vec → Vec → ℚ)
        (items : List CseItem) (query : String),
        items ≠ [] → (∀ it ∈ items, embed (cseText it) = none) →
        google_custom_search embed score items query
          = Except.error ()) := by
  refine ⟨?_, ?_, ?_, ?_, ?_⟩
  · intro embed score cands query q hq hsumm hlinks
    rw [arxiv_search_eq embed score cands query q hq
      (fun c hc _ => hlinks c hc)]
    rw [List.filter_eq_self.mpr (fun c hc => hsumm c hc)]
    exact ⟨sortByDesc_perm _ _, sortByDesc_sorted _ _⟩
  · intro embed score items query q hq hemb
    refine ⟨_, _, google_custom_search_eq embed score items query q hq hemb,
      sortByDesc_perm _ _, sortByDesc_sorted _ _⟩
  · exact fun embed score query => ⟨rfl, rfl⟩
  · intro embed score cands query h
    unfold arxiv_search
    rw [arxivProcess_all_fail embed score (embed query) cands h]
    rfl
  · intro embed score items query hne h
    obtain ⟨it, hit⟩ := List.exists_mem_of_ne_nil items hne
    unfold google_custom_search
    rw [cseProcess_error_of_fail embed score (embed query) items
      ⟨it, hit, h it hit⟩]
    rfl

/-- Claim C1 counterexample: (a) a CSE batch whose single candidate fails
to embed does not return an empty sequence — the uncaught
`relatedness_function(query_embedding, None)` call makes
`google_custom_search` raise; (b) an arXiv candidate set in which every
embedding request succeeds but one result carries a single link makes
`arxiv_search` return the empty list, which is not a permutation of the
one-element input. -/
theorem C1_counterexample :
    google_custom_search (fun t => if t = "q" then some [1] else none)
        (fun _ _ => 0) [⟨"T", "l", some "S"⟩] "q" = Except.error ()
    ∧ arxiv_search (fun _ => some [1]) (fun _ _ => 0)
        [⟨"t", "s", ["lone-url"], "2024"⟩] "q" = ([], []) :=
  ⟨rfl, rfl⟩

/-- Claim C1 witness: both rankers at a concrete all-success input. -/
theorem C1_rank_permutation_sorted_witness :
    (((arxiv_search (fun _ => some [1]) (fun _ _ => 0)
          [⟨"t", "s", ["u0", "u1"], "2024"⟩] "q").1).Perm
        (([⟨"t", "s", ["u0", "u1"], "2024"⟩] : List ArxivRaw).map
          (mkScored (fun _ => some [1]) (fun _ _ => 0) [1]))
      ∧ SortedDescBy (·.relatedness_score)
          (arxiv_search (fun _ => some [1]) (fun _ _ => 0)
            [⟨"t", "s", ["u0", "u1"], "2024"⟩] "q").1)
    ∧ (∃ ret rows, google_custom_search (fun _ => some [1]) (fun _ _ => 0)
          [⟨"T", "l", some "S"⟩] "q" = Except.ok (ret, rows)
        ∧ ret.Perm (([⟨"T", "l", some "S"⟩] : List CseItem).map
            (mkCseScored (fun _ => some [1]) (fun _ _ => 0) [1]))
        ∧ SortedDescBy (·.relatedness_score) ret) := by
  constructor
  · exact C1_rank_permutation_sorted.1 _ _ _ _ [1] rfl
      (fun c _ => rfl)
      (fun c hc => by
        rcases List.mem_singleton.mp hc with rfl
        decide)
  · exact C1_rank_permutation_sorted.2.1 _ _ _ _ [1] rfl
      (fun it _ => rfl)

/-- Claim C2 (amended): the arXiv ranker scores each candidate by the
embedding of its full summary — its output depends on the embedding
oracle only through the query text and each candidate's `summary` field —
but the web-search ranker embeds the concatenation of the candidate's
`title` and `snippet` (`f"{title} {snippet}"`, line 124), so the title
does participate in the scored embedding; its output depends on the
oracle only through the query text and each item's `cseText`. -/
theorem C2_embedded_text :
    (∀ (embed embed' : String → Option Vec) (score : Vec → Vec → ℚ)
        (cands : List ArxivRaw) (query : String),
        embed query = embed' query →
        (∀ c ∈ cands, embed c.summary = embed' c.summary) →
        arxiv_search embed score cands query
          = arxiv_search embed' score cands query)
    ∧ (∀ (embed embed' : String → Option Vec) (score : Vec → Vec → ℚ)
        (items : List CseItem) (query : String),
        embed query = embed' query →
        (∀ it ∈ items, embed (cseText it) = embed' (cseText it)) →
        google_custom_search embed score items query
          = google_custom_search embed' score items query)
    ∧ (∀ it : CseItem,
        cseText it = it.title ++ " " ++ it.snippet.getD "") := by
  refine ⟨?_, ?_, fun it => rfl⟩
  · intro embed embed' score cands query hq h
    unfold arxiv_search
    rw [hq, arxivProcess_congr embed embed' score (embed' query) cands h]
  · intro embed embed' score items query hq h
    unfold google_custom_search
    rw [hq, cseProcess_congr embed embed' score (embed' query) items h]

/-- Claim C2 counterexample: with an oracle sending the concatenation
"T S" to `[7]` and the bare snippet "S" to `[3]`, and the score function
reading the head of the candidate vector, the single CSE item titled "T"
with snippet "S" is ranked with score 7 — the embedding of the
title-bearing text "T S" — not 3, the embedding of its snippet alone.
The embedded text is therefore not the snippet and does contain the
title, contradicting the claim for the web-search provider. -/
theorem C2_counterexample :
    google_custom_search
        (fun t => if t = "T S" then some [7]
          else if t = "S" then some [3] else some [1])
        (fun _ v => v.headD 0)
        [⟨"T", "l", some "S"⟩] "q"
      = Except.ok ([⟨"T", "l", "S", 7⟩],
          [[Cell.str "T", Cell.str "S", Cell.str "l", Cell.num 7]]) := by
  rfl

/-- Claim C2 witness: two oracles that differ on the unused text "never"
but agree on the query and every embedded text produce identical runs. -/
theorem C2_embedded_text_witness :
    arxiv_search (fun _ => some [1]) (fun _ _ => 0)
        [⟨"t", "s", ["u0", "u1"], "2024"⟩] "q"
      = arxiv_search (fun t => if t = "never" then none else some [1])
        (fun _ _ => 0) [⟨"t", "s", ["u0", "u1"], "2024"⟩] "q" := by
  exact C2_embedded_text.1 _ _ _ _ _ (by decide)
    (fun c hc => by rcases List.mem_singleton.mp hc with rfl; decide)

/-- Claim C3 (amended): for arXiv, a batch of N candidates in which
exactly M candidate-embedding requests fail still produces N−M scored
results, provided the query embedding succeeded and every surviving
candidate carries at least two links; the web-search provider does not
skip failures — with a successful query embedding it returns all N
results only when zero candidates fail, and any failed candidate
embedding aborts the whole batch with an uncaught exception. -/
theorem C3_partial_failure_tolerance :
    (∀ (embed : String → Option Vec) (score : Vec → Vec → ℚ)
        (cands : List ArxivRaw) (query : String) (q : Vec),
        embed query = some q →
        (∀ c ∈ cands, embed c.summary ≠ none → 2 ≤ c.links.length) →
        ((arxiv_search embed score cands query).1).length
          = cands.length
            - (cands.filter (fun c => (embed c.summary).isNone)).length)
    ∧ (∀ (embed : String → Option Vec) (score : Vec → Vec → ℚ)
        (items : List CseItem) (query : String) (q : Vec),
        embed query = some q →
        (∀ it ∈ items, (embed (cseText it)).isSome) →
        ∃ ret rows, google_custom_search embed score items query
            = Except.ok (ret, rows) ∧ ret.length = items.length)
    ∧ (∀ (embed : String → Option Vec) (score : Vec → Vec → ℚ)
        (items : List CseItem) (query : String),
        (∃ it ∈ items, embed (cseText it) = none) →
        google_custom_search embed score items query
          = Except.error ()) := by
  refine ⟨?_, ?_, ?_⟩
  · intro embed score cands query q hq hlinks
    rw [arxiv_search_eq embed score cands query q hq hlinks]
    show (sortByDesc _ _).length = _
    rw [sortByDesc_length, List.length_map, filter_isSome_length]
  · intro embed score items query q hq hemb
    refine ⟨_, _, google_custom_search_eq embed score items query q hq hemb,
      ?_⟩
    rw [sortByDesc_length, List.length_map]
  · intro embed score items query hfail
    unfold google_custom_search
    rw [cseProcess_error_of_fail embed score (embed query) items hfail]
    rfl

/-- Claim C3 counterexample: a CSE batch of N = 2 candidates in which
exactly M = 1 fails embedding does not return N−M = 1 scored results —
`google_custom_search` raises instead of skipping the failed candidate. -/
theorem C3_counterexample :
    google_custom_search
        (fun t => if t = "B sb" then none else some [1]) (fun _ _ => 0)
        [⟨"A", "la", some "sa"⟩, ⟨"B", "lb", some "sb"⟩] "q"
      = Except.error () := by
  rfl

/-- Claim C3 witness: an arXiv batch of N = 2 candidates with M = 1
failed embedding yields exactly 1 scored result. -/
theorem C3_partial_failure_tolerance_witness :
    ((arxiv_search (fun t => if t = "fail" then none else some [1])
        (fun _ _ => 0)
        [⟨"t1", "s1", ["a", "b"], "2024"⟩, ⟨"t2", "fail", ["x", "y"], "2024"⟩]
        "q").1).length
      = ([⟨"t1", "s1", ["a", "b"], "2024"⟩,
          ⟨"t2", "fail", ["x", "y"], "2024"⟩] : List ArxivRaw).length
        - (([⟨"t1", "s1", ["a", "b"], "2024"⟩,
             ⟨"t2", "fail", ["x", "y"], "2024"⟩] : List ArxivRaw).filter
            (fun c =>
              ((fun t => if t = "fail" then none else some ([1] : Vec))
                  c.summary).isNone)).length
    ∧ ((arxiv_search (fun t => if t = "fail" then none else some [1])
        (fun _ _ => 0)
        [⟨"t1", "s1", ["a", "b"], "2024"⟩, ⟨"t2", "fail", ["x", "y"], "2024"⟩]
        "q").1).length = 1 := by
  constructor
  · exact C3_partial_failure_tolerance.1 _ _ _ _ [1] rfl
      (fun c hc _ => by
        rcases List.mem_cons.mp hc with rfl | hc
        · decide
        · rcases List.mem_singleton.mp hc with rfl; decide)
  · rfl

/-- Claim C4 (amended): when the query embedding fails, `arxiv_search`
does not fail fast with an EmbeddingFailure — every exception in its body
is caught (lines 90-92) and it returns the ordinary empty result,
indistinguishable from "no results", while the file for the key has
already been truncated (opened with mode "w" before the query embedding
is requested, line 58) and is left holding no rows, destroying any
previously saved rows under that key; `google_custom_search` propagates
an untyped exception at the first candidate when items are present
(before anything is persisted, since its file is only written after the
loop), and returns a successful empty result when there are no items at
all. -/
theorem C4_query_embedding_failure :
    (∀ (fs : Store) (embed : String → Option Vec)
        (score : Vec → Vec → ℚ) (cands : List ArxivRaw) (query : String),
        embed query = none →
        (arxiv_run fs embed score cands query).2 = []
        ∧ (arxiv_run fs embed score cands query).1 query = some [])
    ∧ (∀ (embed : String → Option Vec) (score : Vec → Vec → ℚ)
        (items : List CseItem) (query : String),
        embed query = none → items ≠ [] →
        google_custom_search embed score items query = Except.error ())
    ∧ (∀ (fs : Store) (embed : String → Option Vec)
        (score : Vec → Vec → ℚ) (items : List CseItem) (query : String),
        embed query = none → items ≠ [] →
        cse_run fs embed score items query = Except.error ())
    ∧ (∀ (embed : String → Option Vec) (score : Vec → Vec → ℚ)
        (query : String),
        embed query = none →
        google_custom_search embed score ([] : List CseItem) query
          = Except.ok ([], [])) := by
  have hgoogle : ∀ (embed : String → Option Vec) (score : Vec → Vec → ℚ)
      (items : List CseItem) (query : String),
      embed query = none → items ≠ [] →
      google_custom_search embed score items query = Except.error () := by
    intro embed score items query hq hne
    unfold google_custom_search
    rw [hq, cseProcess_qe_none embed score items hne]
    rfl
  refine ⟨?_, hgoogle, ?_, fun embed score query _ => rfl⟩
  · intro fs embed score cands query hq
    have hs := arxiv_search_qe_none embed score cands query hq
    constructor
    · show (arxiv_search embed score cands query).1 = []
      rw [hs]
    · show storeWrite fs query (arxiv_search embed score cands query).2 query
        = some []
      rw [hs]
      simp [storeWrite]
  · intro fs embed score items query hq hne
    unfold cse_run
    rw [hgoogle embed score items query hq hne]
    rfl

/-- Claim C4 counterexample: with a store already holding a saved row
under key "q" and an oracle that fails on the query text but succeeds on
the candidate summary, `arxiv_search` completes normally — it returns the
ordinary empty result rather than failing with an EmbeddingFailure (its
return type, like the source function, has no failure channel: every
exception is caught and turned into `[]`) — and the persisted file for
"q" is truncated to empty, destroying the previously saved row, so the
operation does leave behind changed persisted state. -/
theorem C4_counterexample :
    (arxiv_run (fun _ => some [[Cell.str "old"]])
        (fun t => if t = "s" then some [1] else none) (fun _ _ => 0)
        [⟨"t", "s", ["u0", "u1"], "2024"⟩] "q").2 = []
    ∧ (arxiv_run (fun _ => some [[Cell.str "old"]])
        (fun t => if t = "s" then some [1] else none) (fun _ _ => 0)
        [⟨"t", "s", ["u0", "u1"], "2024"⟩] "q").1 "q" = some []
    ∧ ((fun _ => some [[Cell.str "old"]]) : Store) "q"
        = some [[Cell.str "old"]]
    ∧ (fun t => if t = "s" then some ([1] : Vec) else none) "q" = none := by
  refine ⟨rfl, ?_, rfl, rfl⟩
  simp [arxiv_run, storeWrite]
  rfl

/-- Claim C4 witness: the arXiv branch at an empty candidate list and the
CSE branch at a one-item list, both with a failing query embedding. -/
theorem C4_query_embedding_failure_witness :
    ((arxiv_run (fun _ => none) (fun _ => none) (fun _ _ => 0) [] "q").2
        = []
      ∧ (arxiv_run (fun _ => none) (fun _ => none) (fun _ _ => 0)
          [] "q").1 "q" = some [])
    ∧ google_custom_search (fun _ => none) (fun _ _ => 0)
        [⟨"T", "l", some "S"⟩] "q" = Except.error () :=
  ⟨C4_query_embedding_failure.1 _ _ _ _ _ rfl,
   C4_query_embedding_failure.2.1 _ _ _ _ rfl (List.cons_ne_nil _ _)⟩

/-- Claim C6 (amended): after a run that completed without an exception
and saved at least one row, with pairwise-distinct relatedness scores,
loading the saved file back through the reload handler returns exactly
the rows of the ranked result in the same descending-score order — the
load path recomputes no embedding or score (`load_arxiv_results` and
`load_cse_results` take no embedding oracle at all), it only re-sorts
the stored rows by the known score column index, 4 for arXiv and 3 for
CSE.  A save with zero rows reloads as a non-fatal warning (the
`EmptyDataError` path of lines 298/317), not as an empty result set;
and rows with tied scores may reload in a different relative order than
they were saved, because pandas produces the descending order by
reversing an ascending sort. -/
theorem C6_save_load_round_trip :
    (∀ (fs : Store) (embed : String → Option Vec)
        (score : Vec → Vec → ℚ) (cands : List ArxivRaw) (query : String)
        (l : List ArxivScored),
        (arxivProcess embed score (embed query) cands).2 = Except.ok l →
        l ≠ [] →
        l.Pairwise
          (fun a b => a.relatedness_score ≠ b.relatedness_score) →
        load_arxiv_results (arxiv_run fs embed score cands query).1 query
          = some (((arxiv_run fs embed score cands query).2).map
              arxivRowOf)
        ∧ SortedDescBy (rowScore 4)
            (((arxiv_run fs embed score cands query).2).map arxivRowOf))
    ∧ (∀ (fs : Store) (embed : String → Option Vec)
        (score : Vec → Vec → ℚ) (items : List CseItem) (query : String)
        (p : Store × List CseScored),
        cse_run fs embed score items query = Except.ok p →
        p.2 ≠ [] →
        p.2.Pairwise
          (fun a b => a.relatedness_score ≠ b.relatedness_score) →
        load_cse_results p.1 query = some (p.2.map cseRowOf)
        ∧ SortedDescBy (rowScore 3) (p.2.map cseRowOf))
    ∧ (∀ (fs : Store) (query : String), fs query = some [] →
        load_arxiv_results fs query = none
        ∧ load_cse_results fs query = none) := by
  refine ⟨?_, ?_, ?_⟩
  · intro fs embed score cands query l h hne hd
    have hp : arxivProcess embed score (embed query) cands
        = ((arxivProcess embed score (embed query) cands).1,
           Except.ok l) := Prod.ext_iff.mpr ⟨rfl, h⟩
    have hrows := arxivProcess_ok_rows embed score (embed query) cands l h
    have hsearch : arxiv_search embed score cands query
        = (sortByDesc (·.relatedness_score) l, l.map arxivRowOf) := by
      unfold arxiv_search
      rw [hp, hrows]
    have hret : (arxiv_run fs embed score cands query).2
        = sortByDesc (·.relatedness_score) l := by
      show (arxiv_search embed score cands query).1 = _
      rw [hsearch]
    have hstore : (arxiv_run fs embed score cands query).1
        = storeWrite fs query (l.map arxivRowOf) := by
      show storeWrite fs query (arxiv_search embed score cands query).2
        = _
      rw [hsearch]
    have hdL : (l.map arxivRowOf).Pairwise
        (fun a b => rowScore 4 a ≠ rowScore 4 b) :=
      List.pairwise_map.mpr hd
    have hperm : (pandasSortDesc (rowScore 4) (l.map arxivRowOf)).Perm
        ((sortByDesc (·.relatedness_score) l).map arxivRowOf) :=
      (pandasSortDesc_perm _ _).trans
        (((sortByDesc_perm (·.relatedness_score) l).map arxivRowOf).symm)
    have hdPandas : (pandasSortDesc (rowScore 4)
        (l.map arxivRowOf)).Pairwise
          (fun a b => rowScore 4 a ≠ rowScore 4 b) :=
      (List.Perm.pairwise_iff (fun h' => Ne.symm h')
        (pandasSortDesc_perm _ _)).mpr hdL
    have key_eq : pandasSortDesc (rowScore 4) (l.map arxivRowOf)
        = (sortByDesc (·.relatedness_score) l).map arxivRowOf :=
      sorted_perm_eq (rowScore 4) hperm (pandasSortDesc_sorted _ _)
        (sortedDescBy_map _ _ _ rowScore_arxivRowOf
          (sortByDesc_sorted _ _)) hdPandas
    constructor
    · rw [hstore, hret,
        load_arxiv_results_storeWrite fs query (l.map arxivRowOf)
          (by simpa using hne), key_eq]
    · rw [hret]
      exact sortedDescBy_map _ _ _ rowScore_arxivRowOf
        (sortByDesc_sorted _ _)
  · intro fs embed score items query p h hne hd
    unfold cse_run at h
    cases hg : google_custom_search embed score items query with
    | error e => rw [hg] at h; simp [Except.map] at h
    | ok g =>
      rw [hg] at h
      simp only [Except.map, Except.ok.injEq] at h
      subst h
      have hshape := google_custom_search_ok_shape _ _ _ _ hg
      have hdL : (g.1.map cseRowOf).Pairwise
          (fun a b => rowScore 3 a ≠ rowScore 3 b) :=
        List.pairwise_map.mpr hd
      have hsorted : SortedDescBy (rowScore 3) (g.1.map cseRowOf) :=
        sortedDescBy_map _ _ _ rowScore_cseRowOf hshape.2
      have hperm : (pandasSortDesc (rowScore 3) (g.1.map cseRowOf)).Perm
          (g.1.map cseRowOf) := pandasSortDesc_perm _ _
      have hdPandas : (pandasSortDesc (rowScore 3)
          (g.1.map cseRowOf)).Pairwise
            (fun a b => rowScore 3 a ≠ rowScore 3 b) :=
        (List.Perm.pairwise_iff (fun h' => Ne.symm h') hperm).mpr hdL
      have key_eq : pandasSortDesc (rowScore 3) (g.1.map cseRowOf)
          = g.1.map cseRowOf :=
        sorted_perm_eq (rowScore 3) hperm (pandasSortDesc_sorted _ _)
          hsorted hdPandas
      constructor
      · show load_cse_results (storeWrite fs query g.2) query
          = some (g.1.map cseRowOf)
        rw [hshape.1,
          load_cse_results_storeWrite fs query (g.1.map cseRowOf)
            (by simpa using hne), key_eq]
      · exact hsorted
  · intro fs query h
    exact ⟨by simp [load_arxiv_results, h], by simp [load_cse_results, h]⟩

/-- Claim C6 counterexample: (a) saving a ranked result set with zero
rows — an empty candidate set completes the run and leaves a zero-byte
file — and loading it back does not return the empty result set:
`pd.read_csv` raises `EmptyDataError`, caught and shown as a warning
(line 298), modelled as `none`; (b) two saved rows with tied scores
reload in the opposite order to the one saved and displayed: the ranked
return projects to `[row t1, row t2]` but the reload shows
`[row t2, row t1]`. -/
theorem C6_counterexample :
    load_arxiv_results
        (arxiv_run (fun _ => none) (fun _ => some [1]) (fun _ _ => 0)
          [] "q").1 "q" = none
    ∧ (arxiv_run (fun _ => none) (fun _ => some [1]) (fun _ _ => 0)
        [] "q").1 "q" = some []
    ∧ ((arxiv_run (fun _ => none) (fun _ => some [1]) (fun _ _ => 0)
        [⟨"t1", "s1", ["a", "b"], "2024"⟩,
         ⟨"t2", "s2", ["c", "d"], "2024"⟩] "q").2).map arxivRowOf
      = [[Cell.str "t1", Cell.str "s1", Cell.str "2024", Cell.str "b",
          Cell.num 0],
         [Cell.str "t2", Cell.str "s2", Cell.str "2024", Cell.str "d",
          Cell.num 0]]
    ∧ load_arxiv_results
        (arxiv_run (fun _ => none) (fun _ => some [1]) (fun _ _ => 0)
          [⟨"t1", "s1", ["a", "b"], "2024"⟩,
           ⟨"t2", "s2", ["c", "d"], "2024"⟩] "q").1 "q"
      = some [[Cell.str "t2", Cell.str "s2", Cell.str "2024",
          Cell.str "d", Cell.num 0],
         [Cell.str "t1", Cell.str "s1", Cell.str "2024", Cell.str "b",
          Cell.num 0]] :=
  ⟨rfl, rfl, rfl, rfl⟩

/-- Claim C6 witness: a concrete one-candidate arXiv save-then-load and
a concrete one-item CSE save-then-load, each with one saved row and
trivially distinct scores. -/
theorem C6_save_load_round_trip_witness :
    ((arxivProcess (fun _ => some [1]) (fun _ _ => 0) (some [1])
        [⟨"t", "s", ["u0", "u1"], "2024"⟩]).2
      = Except.ok [⟨"t", "s", "u0", "u1", "2024", 0⟩])
    ∧ load_arxiv_results
        (arxiv_run (fun _ => none) (fun _ => some [1]) (fun _ _ => 0)
          [⟨"t", "s", ["u0", "u1"], "2024"⟩] "q").1 "q"
      = some (((arxiv_run (fun _ => none) (fun _ => some [1])
          (fun _ _ => 0) [⟨"t", "s", ["u0", "u1"], "2024"⟩] "q").2).map
            arxivRowOf)
    ∧ (cse_run (fun _ => none) (fun _ => some [1]) (fun _ _ => 0)
          [⟨"T", "l", some "S"⟩] "q"
        = Except.ok (storeWrite (fun _ => none) "q"
            [[Cell.str "T", Cell.str "S", Cell.str "l", Cell.num 0]],
          [⟨"T", "l", "S", 0⟩]))
    ∧ load_cse_results (storeWrite (fun _ => none) "q"
          [[Cell.str "T", Cell.str "S", Cell.str "l", Cell.num 0]]) "q"
      = some (([⟨"T", "l", "S", 0⟩] : List CseScored).map cseRowOf) := by
  refine ⟨rfl, ?_, rfl, ?_⟩
  · exact (C6_save_load_round_trip.1 (fun _ => none) (fun _ => some [1])
      (fun _ _ => 0) [⟨"t", "s", ["u0", "u1"], "2024"⟩] "q"
      [⟨"t", "s", "u0", "u1", "2024", 0⟩] rfl
      (List.cons_ne_nil _ _) (List.pairwise_singleton _ _)).1
  · exact (C6_save_load_round_trip.2.1 (fun _ => none) (fun _ => some [1])
      (fun _ _ => 0) [⟨"T", "l", some "S"⟩] "q"
      (storeWrite (fun _ => none) "q"
        [[Cell.str "T", Cell.str "S", Cell.str "l", Cell.num 0]],
       [⟨"T", "l", "S", 0⟩]) rfl
      (List.cons_ne_nil _ _) (List.pairwise_singleton _ _)).1

/-- Claim C10: whenever an exception is raised while processing a single
candidate inside the arXiv results loop — for example a result carrying
fewer than two links, or scoring against a failed query embedding — the
handler at lines 90-92 catches it and `arxiv_search` returns the empty
list, discarding every previously scored candidate from the returned
value, while the rows already written to `arxiv/{query}.csv` remain in
the store: the returned value is all-or-nothing but the persisted state
is not rolled back. -/
theorem C10_arxiv_exception_empty_return_keeps_rows :
    ∀ (fs : Store) (embed : String → Option Vec)
      (score : Vec → Vec → ℚ) (cands : List ArxivRaw) (query : String)
      (rows : List Row),
      arxivProcess embed score (embed query) cands
        = (rows, Except.error ()) →
      arxiv_search embed score cands query = ([], rows)
      ∧ (arxiv_run fs embed score cands query).1 query = some rows := by
  intro fs embed score cands query rows h
  have hs := arxiv_search_of_error embed score cands query rows h
  refine ⟨hs, ?_⟩
  simp [arxiv_run, storeWrite, hs]

/-- Claim C10 witness: a two-candidate run whose first candidate is
scored and written and whose second raises (a single link): the returned
list is empty while the first candidate's row stays in the store. -/
theorem C10_arxiv_exception_witness :
    arxiv_search (fun _ => some [1]) (fun _ _ => 0)
        [⟨"t1", "s1", ["a", "b"], "2024"⟩, ⟨"t2", "s2", ["only"], "2024"⟩]
        "q"
      = ([], [[Cell.str "t1", Cell.str "s1", Cell.str "2024",
          Cell.str "b", Cell.num 0]])
    ∧ (arxiv_run (fun _ => none) (fun _ => some [1]) (fun _ _ => 0)
        [⟨"t1", "s1", ["a", "b"], "2024"⟩, ⟨"t2", "s2", ["only"], "2024"⟩]
        "q").1 "q"
      = some [[Cell.str "t1", Cell.str "s1", Cell.str "2024",
          Cell.str "b", Cell.num 0]] :=
  C10_arxiv_exception_empty_return_keeps_rows
    (fun _ => none) _ _ _ _ _ rfl

end PrivyLens
